import Mathlib

/-!
Verification development for the funktrack rhythm-engine core.

The Rust sources are shallowly embedded: `f64` values become exact
rationals (`ℚ`), machine integers become `ℕ`/`ℤ`, Rust's
`f64::round` (round half away from zero) becomes `rustRound`, and the
saturating cast `as u64` of a nonnegative value becomes `Int.toNat`.
Each definition mirrors one function of the repository; the file is
organised by source file: scoring.rs, judgment.rs, notes.rs,
conductor.rs, beatmap.rs (SlideDirection), and the offline chart
generator (chart.rs, beat.rs, quantize.rs).
-/

namespace Funktrack

/-- Rust `f64::round`: round half away from zero. -/
def rustRound (x : ℚ) : ℤ :=
  if x < 0 then -⌊-x + 1/2⌋ else ⌊x + 1/2⌋

/-- Judgment grades, from judgment.rs. -/
inductive Judgment
  | Great
  | Cool
  | Good
  | Miss
  deriving DecidableEq, Repr

/-- Chain tiers, from scoring.rs. -/
inductive ChainTier
  | Normal
  | Fever
  | Trance
  deriving DecidableEq, Repr

/-- Grade ranks, from scoring.rs. -/
inductive GradeRank
  | SPlusPlus
  | SPlus
  | S
  | A
  | B
  | C
  | D
  deriving DecidableEq, Repr

/-- ScoreState resource, from scoring.rs. Counts are u32 (modelled ℕ,
overflow impossible for realistic judgment counts), `score` is u64,
`base_value` is f64 (modelled ℚ). -/
structure ScoreState where
  score : ℕ
  chain : ℕ
  max_chain : ℕ
  great_count : ℕ
  cool_count : ℕ
  good_count : ℕ
  miss_count : ℕ
  total_notes : ℕ
  base_value : ℚ
  deriving DecidableEq, Repr

/-- PLAY_SCORE_POOL from scoring.rs. -/
def PLAY_SCORE_POOL : ℚ := 850000

/-- MAX_CHAIN_BONUS from scoring.rs. -/
def MAX_CHAIN_BONUS : ℕ := 100000

/-- CLEAR_BONUS from scoring.rs. -/
def CLEAR_BONUS : ℕ := 50000

/-- FEVER_THRESHOLD from scoring.rs. -/
def FEVER_THRESHOLD : ℕ := 10

/-- TRANCE_THRESHOLD from scoring.rs. -/
def TRANCE_THRESHOLD : ℕ := 100

/-- ScoreState::notes_judged. -/
def ScoreState.notes_judged (s : ScoreState) : ℕ :=
  s.great_count + s.cool_count + s.good_count + s.miss_count

/-- ScoreState::chain_tier. -/
def ScoreState.chain_tier (s : ScoreState) : ChainTier :=
  if s.chain ≥ TRANCE_THRESHOLD then ChainTier.Trance
  else if s.chain ≥ FEVER_THRESHOLD then ChainTier.Fever
  else ChainTier.Normal

/-- grade_multiplier from scoring.rs. -/
def grade_multiplier : Judgment → ℚ
  | Judgment.Great => 1
  | Judgment.Cool => 4/5
  | Judgment.Good => 1/2
  | Judgment.Miss => 0

/-- chain_increment from scoring.rs. -/
def chain_increment : ChainTier → ℕ
  | ChainTier.Normal => 1
  | ChainTier.Fever => 2
  | ChainTier.Trance => 4

/-- grade_rank_from_score from scoring.rs. -/
def grade_rank_from_score (score : ℕ) : GradeRank :=
  if score ≥ 1000000 then GradeRank.SPlusPlus
  else if score ≥ 980000 then GradeRank.SPlus
  else if score ≥ 950000 then GradeRank.S
  else if score ≥ 900000 then GradeRank.A
  else if score ≥ 800000 then GradeRank.B
  else if score ≥ 700000 then GradeRank.C
  else GradeRank.D

/-- ScoreState::play_score: recomputed from counts, each term rounded
then cast to u64. -/
def ScoreState.play_score (s : ScoreState) : ℕ :=
  let great_pts := (rustRound ((s.great_count : ℚ) * s.base_value * grade_multiplier Judgment.Great)).toNat
  let cool_pts := (rustRound ((s.cool_count : ℚ) * s.base_value * grade_multiplier Judgment.Cool)).toNat
  let good_pts := (rustRound ((s.good_count : ℚ) * s.base_value * grade_multiplier Judgment.Good)).toNat
  great_pts + cool_pts + good_pts

/-- ScoreState::chain_bonus. -/
def ScoreState.chain_bonus (s : ScoreState) : ℕ :=
  if s.total_notes = 0 then 0
  else
    let raw : ℚ := (MAX_CHAIN_BONUS : ℚ) * (s.max_chain : ℚ) / (s.total_notes : ℚ)
    min (rustRound raw).toNat MAX_CHAIN_BONUS

/-- ScoreState::clear_bonus. -/
def ScoreState.clear_bonus (_s : ScoreState) : ℕ := CLEAR_BONUS

/-- ScoreState::total_score. -/
def ScoreState.total_score (s : ScoreState) : ℕ :=
  s.play_score + s.chain_bonus + s.clear_bonus

/-- ScoreState::grade_rank. -/
def ScoreState.grade_rank (s : ScoreState) : GradeRank :=
  grade_rank_from_score s.total_score

/-- init_score_state from scoring.rs: `total` is the note-queue length. -/
def init_score_state (total : ℕ) : ScoreState :=
  { score := 0
    chain := 0
    max_chain := 0
    great_count := 0
    cool_count := 0
    good_count := 0
    miss_count := 0
    total_notes := total
    base_value := if total > 0 then PLAY_SCORE_POOL / (total : ℚ) else 0 }

/-- One iteration of the update_score loop in scoring.rs: process a
single JudgmentResult. -/
def update_score_step (s : ScoreState) (j : Judgment) : ScoreState :=
  let s1 :=
    match j with
    | Judgment.Great => { s with great_count := s.great_count + 1 }
    | Judgment.Cool => { s with cool_count := s.cool_count + 1 }
    | Judgment.Good => { s with good_count := s.good_count + 1 }
    | Judgment.Miss => { s with miss_count := s.miss_count + 1 }
  let s2 :=
    if j = Judgment.Miss then { s1 with chain := 0 }
    else
      let tier := s1.chain_tier
      let c := s1.chain + chain_increment tier
      { s1 with chain := c, max_chain := max s1.max_chain c }
  { s2 with score := s2.score + (rustRound (s2.base_value * grade_multiplier j)).toNat }

/-- update_score from scoring.rs: drain the judgment queue in order. -/
def update_score (s : ScoreState) (results : List Judgment) : ScoreState :=
  results.foldl update_score_step s

/-- The 8 slide directions, from beatmap.rs (mirrored in the chart
generator's chart.rs). -/
inductive SlideDirection
  | N
  | NE
  | E
  | SE
  | S
  | SW
  | W
  | NW
  deriving DecidableEq, Repr

/-- Runtime note kinds, from notes.rs (NoteKind). There is no Rest
variant; the full list is Tap, Slide, Hold, AdLib, Beat, Scratch,
Critical, DualSlide. -/
inductive NoteKind
  | Tap
  | Slide (dir : SlideDirection)
  | Hold (end_beat : ℚ)
  | AdLib
  | Beat
  | Scratch
  | Critical
  | DualSlide (a b : SlideDirection)
  deriving DecidableEq, Repr

/-- Hold-note state machine states, from notes.rs. -/
inductive HoldState
  | Pending
  | Held
  | Completed
  | Dropped
  deriving DecidableEq, Repr

/-- NoteTiming component, from notes.rs. -/
structure NoteTiming where
  target_beat : ℚ
  spawn_beat : ℚ
  travel_beats : ℚ
  deriving DecidableEq, Repr

/-- beats_to_ms from judgment.rs. -/
def beats_to_ms (beat_diff bpm : ℚ) : ℚ := beat_diff * 60000 / bpm

/-- ms_to_beats from judgment.rs. -/
def ms_to_beats (ms bpm : ℚ) : ℚ := ms * bpm / 60000

/-- GREAT_WINDOW_MS from judgment.rs. -/
def GREAT_WINDOW_MS : ℚ := 20

/-- COOL_WINDOW_MS from judgment.rs. -/
def COOL_WINDOW_MS : ℚ := 50

/-- GOOD_WINDOW_MS from judgment.rs. -/
def GOOD_WINDOW_MS : ℚ := 100

/-- MISS_WINDOW_MS from judgment.rs. -/
def MISS_WINDOW_MS : ℚ := 100

/-- grade_timing from judgment.rs. -/
def grade_timing (abs_diff_ms : ℚ) : Option Judgment :=
  if abs_diff_ms ≤ GREAT_WINDOW_MS then some Judgment.Great
  else if abs_diff_ms ≤ COOL_WINDOW_MS then some Judgment.Cool
  else if abs_diff_ms ≤ GOOD_WINDOW_MS then some Judgment.Good
  else none

/-- The HoldState component attached at spawn by spawn_notes in
notes.rs: Hold notes start Pending, nothing else carries a HoldState. -/
def spawn_hold_state : NoteKind → Option HoldState
  | NoteKind.Hold _ => some HoldState.Pending
  | _ => none

/-- The AdLibMarker component attached at spawn by spawn_notes in
notes.rs: present exactly on AdLib notes. -/
def spawn_adlib_marker : NoteKind → Bool
  | NoteKind.AdLib => true
  | _ => false

/-- NoteProgress value given by spawn_notes in notes.rs:
`NoteProgress(0.0)`. -/
def spawn_progress : ℚ := 0

/-- The per-note body of despawn_missed in judgment.rs. Returns
whether the note is despawned this frame together with the list of
JudgmentResult grades it emits (positions are omitted; they are always
the judgment-line position). Branch order follows the source:
expiry test, Held skip, AdLib silent despawn, Hold double Miss,
otherwise single Miss. -/
def despawn_missed_note (current_beat bpm target_beat : ℚ)
    (kind : NoteKind) (hold_state : Option HoldState)
    (adlib_marker : Bool) : Bool × List Judgment :=
  let miss_beats := ms_to_beats MISS_WINDOW_MS bpm
  if current_beat > target_beat + miss_beats then
    if hold_state = some HoldState.Held then (false, [])
    else if adlib_marker then (true, [])
    else
      match kind with
      | NoteKind.Hold _ => (true, [Judgment.Miss, Judgment.Miss])
      | _ => (true, [Judgment.Miss])
  else (false, [])

/-- The per-note body of move_notes in notes.rs: the progress
component is overwritten with
`((current_beat - spawn_beat) / travel_beats).max(0.0)`; the previous
progress value is not read. -/
def move_note (current_beat : ℚ) (timing : NoteTiming)
    (_old_progress : ℚ) : ℚ :=
  max ((current_beat - timing.spawn_beat) / timing.travel_beats) 0

/-- TimingPoint from conductor.rs. -/
structure TimingPoint where
  beat : ℚ
  bpm : ℚ
  deriving DecidableEq, Repr

/-- MAX_SAMPLES from conductor.rs. -/
def MAX_SAMPLES : ℕ := 15

/-- DRIFT_THRESHOLD_SECS from conductor.rs (0.050 s). -/
def DRIFT_THRESHOLD_SECS : ℚ := 1/20

/-- DRIFT_FRAME_LIMIT from conductor.rs. -/
def DRIFT_FRAME_LIMIT : ℕ := 3

/-- MIN_REGRESSION_SPAN from conductor.rs (0.10 s). -/
def MIN_REGRESSION_SPAN : ℚ := 1/10

/-- f64::EPSILON, used by linear_regression's degeneracy checks. -/
def F64_EPSILON : ℚ := 1 / 4503599627370496

/-- SongConductor resource from conductor.rs. The rolling sample
window is a VecDeque whose front is the head of the list. -/
structure SongConductor where
  current_beat : ℚ
  bpm : ℚ
  playing : Bool
  time_samples : List (ℚ × ℚ)
  slope : ℚ
  intercept : ℚ
  timing_points : List TimingPoint
  drift_frames : ℕ
  deriving DecidableEq, Repr

/-- SongConductor::new from conductor.rs. -/
def SongConductor.new (bpm : ℚ) : SongConductor :=
  { current_beat := 0
    bpm := bpm
    playing := false
    time_samples := []
    slope := bpm / 60
    intercept := 0
    timing_points := []
    drift_frames := 0 }

/-- linear_regression from conductor.rs: least squares over the sample
window with x-values centered on the window's first x. -/
def linear_regression (samples : List (ℚ × ℚ)) : ℚ × ℚ :=
  if samples.length < 2 then
    match samples.getLast? with
    | some (x, y) => if |x| < F64_EPSILON then (0, y) else (y / x, 0)
    | none => (0, 0)
  else
    let n : ℚ := samples.length
    let x0 := (samples.headD (0, 0)).1
    let sums := samples.foldl
      (fun (acc : ℚ × ℚ × ℚ × ℚ) (p : ℚ × ℚ) =>
        let xc := p.1 - x0
        (acc.1 + xc, acc.2.1 + p.2, acc.2.2.1 + xc * xc, acc.2.2.2 + xc * p.2))
      (0, 0, 0, 0)
    let mean_x := sums.1 / n
    let mean_y := sums.2.1 / n
    let variance := sums.2.2.1 / n - mean_x * mean_x
    if |variance| < F64_EPSILON then (0, mean_y)
    else
      let covariance := sums.2.2.2 / n - mean_x * mean_y
      let slope := covariance / variance
      (slope, mean_y - slope * (mean_x + x0))

/-- The offset-adjusted audio beat value computed by update_conductor:
`clock_time_to_beats(clock) + audio_offset_ms * bpm / 60_000`. -/
def audio_beats_of (c : SongConductor) (clock_beats offset_ms : ℚ) : ℚ :=
  clock_beats + offset_ms * c.bpm / 60000

/-- The sample window after update_conductor pushes the new sample
(pop the front when the window is full, push the new pair at the
back). -/
def pushed_samples (c : SongConductor) (game_time audio_beats : ℚ) :
    List (ℚ × ℚ) :=
  (if c.time_samples.length ≥ MAX_SAMPLES then c.time_samples.tail
   else c.time_samples) ++ [(game_time, audio_beats)]

/-- The regression-predicted beat used by update_conductor's drift
check: `slope * game_time + intercept` over the pushed window. -/
def predicted_beat_of (c : SongConductor) (game_time audio_beats : ℚ) : ℚ :=
  let r := linear_regression (pushed_samples c game_time audio_beats)
  r.1 * game_time + r.2

/-- The drift in seconds computed by update_conductor:
`|predicted - audio| / (bpm / 60)`. -/
def drift_secs_of (c : SongConductor) (game_time audio_beats : ℚ) : ℚ :=
  |predicted_beat_of c game_time audio_beats - audio_beats| / (c.bpm / 60)

/-- The timing-point advancement block at the end of update_conductor:
when current_beat has crossed the head timing point, pop it, adopt its
bpm and re-seed the window. -/
def advance_timing_points (c : SongConductor) (game_time audio_beats : ℚ) :
    SongConductor :=
  match c.timing_points with
  | [] => c
  | tp :: rest =>
    if c.current_beat ≥ tp.beat then
      { c with
        timing_points := rest
        bpm := tp.bpm
        time_samples := [(game_time, audio_beats)]
        slope := tp.bpm / 60
        intercept := audio_beats - tp.bpm / 60 * game_time }
    else c

/-- update_conductor from conductor.rs, as a state transition on the
conductor given the frame's wall-clock time, the raw audio-clock beat
reading, and the user's audio offset in milliseconds. The three
branches are warm-up (window span below MIN_REGRESSION_SPAN), hard
resync (drift above threshold for DRIFT_FRAME_LIMIT consecutive
frames), and the normal regression path followed by timing-point
advancement. -/
def update_conductor (c0 : SongConductor)
    (game_time clock_beats offset_ms : ℚ) : SongConductor :=
  let c := { c0 with playing := true }
  let audio_beats := audio_beats_of c0 clock_beats offset_ms
  let samples := pushed_samples c0 game_time audio_beats
  let x_span := game_time - (samples.headD (0, 0)).1
  if x_span < MIN_REGRESSION_SPAN then
    { c with
      time_samples := samples
      current_beat := max audio_beats c.current_beat
      slope := c.bpm / 60
      intercept := audio_beats - c.bpm / 60 * game_time }
  else
    let r := linear_regression samples
    let c1 := { c with time_samples := samples, slope := r.1, intercept := r.2 }
    let predicted_beat := r.1 * game_time + r.2
    let drift_secs := |predicted_beat - audio_beats| / (c1.bpm / 60)
    if drift_secs > DRIFT_THRESHOLD_SECS then
      if c1.drift_frames + 1 ≥ DRIFT_FRAME_LIMIT then
        { c1 with
          time_samples := [(game_time, audio_beats)]
          slope := c1.bpm / 60
          intercept := audio_beats - c1.bpm / 60 * game_time
          drift_frames := 0
          current_beat := audio_beats }
      else
        advance_timing_points
          { c1 with
            drift_frames := c1.drift_frames + 1
            current_beat := max predicted_beat c1.current_beat }
          game_time audio_beats
    else
      advance_timing_points
        { c1 with
          drift_frames := 0
          current_beat := max predicted_beat c1.current_beat }
        game_time audio_beats

/-- Concrete input trace for the drift scenarios: bpm 60, zero offset,
an audio spike to beat 100 during warm-up, then a small, steady audio
clock. Each pair is (wall time, raw audio beats). -/
def drift_trace : List (ℚ × ℚ) :=
  [(0, 100), (1/20, 1/20), (1/10, 1/10), (3/20, 3/20), (1/5, 1/5)]

/-- Run the first k updates of drift_trace from a fresh 60-BPM
conductor. -/
def run_conductor (k : ℕ) : SongConductor :=
  (drift_trace.take k).foldl
    (fun st p => update_conductor st p.1 p.2 0) (SongConductor.new 60)

/-- SlideDirection::to_vec2 from beatmap.rs: the unit vector of each
direction (FRAC_1_SQRT_2 embedded as the exact real 1/√2). -/
noncomputable def SlideDirection.to_vec2 : SlideDirection → ℝ × ℝ
  | SlideDirection.N => (0, 1)
  | SlideDirection.NE => ((Real.sqrt 2)⁻¹, (Real.sqrt 2)⁻¹)
  | SlideDirection.E => (1, 0)
  | SlideDirection.SE => ((Real.sqrt 2)⁻¹, -(Real.sqrt 2)⁻¹)
  | SlideDirection.S => (0, -1)
  | SlideDirection.SW => (-(Real.sqrt 2)⁻¹, -(Real.sqrt 2)⁻¹)
  | SlideDirection.W => (-1, 0)
  | SlideDirection.NW => (-(Real.sqrt 2)⁻¹, (Real.sqrt 2)⁻¹)

/-- IEEE atan2 as used by Rust's `f32::atan2`, embedded over ℝ:
principal angle of (x, y) in (-π, π]. -/
noncomputable def rustAtan2 (y x : ℝ) : ℝ :=
  if 0 < x then Real.arctan (y / x)
  else if x < 0 then
    (if 0 ≤ y then Real.arctan (y / x) + Real.pi
     else Real.arctan (y / x) - Real.pi)
  else
    (if 0 < y then Real.pi / 2
     else if y < 0 then -(Real.pi / 2)
     else 0)

/-- Rust `rem_euclid` on reals: `a - b * ⌊a / b⌋`, the representative
of a mod b in [0, b) for b > 0. -/
noncomputable def remEuclid (a b : ℝ) : ℝ := a - b * ⌊a / b⌋

/-- SlideDirection::from_vec2 from beatmap.rs: dead zone below squared
length 0.01, otherwise quantize the angle into 8 sectors of π/4
centered on each direction (the `as u32` cast of the nonnegative
sector value becomes `Int.toNat`). -/
noncomputable def SlideDirection.from_vec2 (v : ℝ × ℝ) :
    Option SlideDirection :=
  if v.1 ^ 2 + v.2 ^ 2 < 1/100 then none
  else
    let angle := rustAtan2 v.2 v.1
    let sector : ℕ :=
      (⌊remEuclid (angle + Real.pi / 8) (2 * Real.pi) / (Real.pi / 4)⌋).toNat
    some (match sector with
      | 0 => SlideDirection.E
      | 1 => SlideDirection.NE
      | 2 => SlideDirection.N
      | 3 => SlideDirection.NW
      | 4 => SlideDirection.W
      | 5 => SlideDirection.SW
      | 6 => SlideDirection.S
      | 7 => SlideDirection.SE
      | _ => SlideDirection.E)

/-- OnsetEvent from the chart generator's onset.rs. -/
structure OnsetEvent where
  frame : ℕ
  strength : ℚ
  time_seconds : ℚ
  deriving DecidableEq, Repr

/-- QuantizedNote from the chart generator's quantize.rs. -/
structure QuantizedNote where
  beat : ℚ
  strength : ℚ
  original_time : ℚ
  deriving DecidableEq, Repr

/-- BeatGrid from the chart generator's beat.rs. -/
structure BeatGrid where
  beats : List ℚ
  bpm : ℚ
  deriving DecidableEq, Repr

/-- Chart-generator difficulties, from the chart generator's
chart.rs. -/
inductive Difficulty
  | Easy
  | Normal
  | Hard
  | Expert
  deriving DecidableEq, Repr

/-- Difficulty::grid_resolution from the chart generator's chart.rs. -/
def Difficulty.grid_resolution : Difficulty → ℕ
  | Difficulty.Easy => 1
  | Difficulty.Normal => 2
  | Difficulty.Hard => 4
  | Difficulty.Expert => 8

/-- The search loop of BeatGrid::time_to_beat: `prev` is beat index
`i` of the grid; interpolate inside the first interval containing `t`,
extrapolate past the last beat using the period 60/bpm. -/
def time_to_beat_go (t bpm : ℚ) : ℚ → ℕ → List ℚ → ℚ
  | prev, i, [] => (i : ℚ) + (t - prev) / (60 / bpm)
  | prev, i, b :: bs =>
    if t ≤ b then (i : ℚ) + (t - prev) / (b - prev)
    else time_to_beat_go t bpm b (i + 1) bs

/-- BeatGrid::time_to_beat from the chart generator's beat.rs. -/
def BeatGrid.time_to_beat (g : BeatGrid) (t : ℚ) : ℚ :=
  match g.beats with
  | [] => 0
  | b0 :: rest =>
    if t ≤ b0 then (t - b0) / (60 / g.bpm)
    else time_to_beat_go t g.bpm b0 0 rest

/-- The snapping step of quantize_onsets: round to the nearest grid
multiple, then round the result to 4 decimal places to avoid
floating-point drift. -/
def snap_beat (grid_step raw_beat : ℚ) : ℚ :=
  let snapped := (rustRound (raw_beat / grid_step) : ℚ) * grid_step
  (rustRound (snapped * 10000) : ℚ) / 10000

/-- One step of the dedup_by closure in quantize_onsets: `acc` holds
the kept notes in reverse order; a new note within 1e-6 of the last
kept note is merged into it keeping the higher strength (and that
note's original time), otherwise it is kept. -/
def dedup_step (acc : List QuantizedNote) (b : QuantizedNote) :
    List QuantizedNote :=
  match acc with
  | [] => [b]
  | a :: rest =>
    if |a.beat - b.beat| < 1/1000000 then
      (if b.strength > a.strength then
        { a with strength := b.strength, original_time := b.original_time }
       else a) :: rest
    else b :: a :: rest

/-- Vec::dedup_by of quantize_onsets: collapse runs of notes whose
beats are within 1e-6, keeping the first of each run with the maximum
strength of the run. -/
def dedup_keep_stronger (l : List QuantizedNote) : List QuantizedNote :=
  (l.foldl dedup_step []).reverse

/-- quantize_onsets from the chart generator's quantize.rs: convert
each onset time to a raw beat, drop onsets before beat 0, snap to the
grid, sort by beat (stably), and dedup colliding positions keeping the
stronger onset. -/
def quantize_onsets (onsets : List OnsetEvent) (grid : BeatGrid)
    (grid_resolution : ℕ) : List QuantizedNote :=
  let grid_step : ℚ := 1 / (grid_resolution : ℚ)
  let notes := onsets.filterMap fun onset =>
    let raw_beat := grid.time_to_beat onset.time_seconds
    if raw_beat < 0 then none
    else some { beat := snap_beat grid_step raw_beat,
                strength := onset.strength,
                original_time := onset.time_seconds }
  dedup_keep_stronger
    (List.mergeSort notes (fun a b => decide (a.beat ≤ b.beat)))

/-! Helper lemmas about Rust rounding. -/

theorem rustRound_of_nonneg {x : ℚ} (hx : 0 ≤ x) :
    rustRound x = ⌊x + 1/2⌋ := by
  unfold rustRound
  rw [if_neg (not_lt.mpr hx)]

theorem rustRound_nonneg {x : ℚ} (hx : 0 ≤ x) : 0 ≤ rustRound x := by
  rw [rustRound_of_nonneg hx]
  exact Int.floor_nonneg.mpr (by linarith)

theorem rustRound_le_add_half {x : ℚ} (hx : 0 ≤ x) :
    (rustRound x : ℚ) ≤ x + 1/2 := by
  rw [rustRound_of_nonneg hx]
  exact Int.floor_le _

theorem rustRound_eq_zero {x : ℚ} (h0 : 0 ≤ x) (hlt : x < 1/2) :
    rustRound x = 0 := by
  rw [rustRound_of_nonneg h0]
  rw [Int.floor_eq_zero_iff]
  constructor
  · linarith
  · linarith

theorem rustRound_intCast (m : ℤ) : rustRound (m : ℚ) = m := by
  rcases le_or_lt 0 (m : ℚ) with h | h
  · rw [rustRound_of_nonneg h, Int.floor_int_add m (1/2 : ℚ)]
    norm_num
  · unfold rustRound
    rw [if_pos h]
    have : -(m : ℚ) + 1/2 = (-m : ℤ) + (1/2 : ℚ) := by push_cast; ring
    rw [this, Int.floor_int_add (-m) (1/2 : ℚ)]
    norm_num

theorem abs_rustRound_sub_le (x : ℚ) : |(rustRound x : ℚ) - x| ≤ 1/2 := by
  rcases le_or_lt 0 x with h | h
  · rw [rustRound_of_nonneg h]
    have h1 := Int.floor_le (x + 1/2)
    have h2 := Int.le_floor.mpr (le_refl (⌊x + 1/2⌋ : ℤ))
    have h3 : (⌊x + 1/2⌋ : ℚ) > x + 1/2 - 1 := by
      have := Int.lt_floor_add_one (x + 1/2)
      linarith
    rw [abs_le]
    constructor <;> linarith
  · unfold rustRound
    rw [if_pos h]
    have h1 := Int.floor_le (-x + 1/2)
    have h3 : (⌊-x + 1/2⌋ : ℚ) > -x + 1/2 - 1 := by
      have := Int.lt_floor_add_one (-x + 1/2)
      linarith
    rw [abs_le]
    push_cast
    constructor <;> linarith

/-! Claims about scoring.rs. -/

/-- C2: with `great_count = max_chain = total_notes > 0`, zero other
counts and `base_value = 850000 / total_notes`, the recomputed total
score is exactly 1,000,000, for every note count. -/
theorem perfect_play_total_score (s : ScoreState)
    (hn : 0 < s.total_notes)
    (hg : s.great_count = s.total_notes)
    (hmc : s.max_chain = s.total_notes)
    (hc : s.cool_count = 0) (hgd : s.good_count = 0)
    (_hm : s.miss_count = 0)
    (hb : s.base_value = PLAY_SCORE_POOL / s.total_notes) :
    s.total_score = 1000000 := by
  have hn0 : (s.total_notes : ℚ) ≠ 0 := Nat.cast_ne_zero.mpr hn.ne'
  have hgq : (s.great_count : ℚ) = (s.total_notes : ℚ) := by exact_mod_cast hg
  have hfull : (s.great_count : ℚ) * s.base_value * grade_multiplier Judgment.Great
      = 850000 := by
    rw [hb, hgq, grade_multiplier]
    field_simp [PLAY_SCORE_POOL]
  have hraw : (MAX_CHAIN_BONUS : ℚ) * (s.max_chain : ℚ) / (s.total_notes : ℚ)
      = 100000 := by
    rw [hmc]
    field_simp [MAX_CHAIN_BONUS]
  unfold ScoreState.total_score ScoreState.play_score ScoreState.chain_bonus
    ScoreState.clear_bonus
  rw [if_neg hn.ne']
  rw [hfull, hraw, hc, hgd]
  have h850 : rustRound (850000 : ℚ) = 850000 := by
    have := rustRound_intCast 850000
    exact_mod_cast this
  have h100 : rustRound (100000 : ℚ) = 100000 := by
    have := rustRound_intCast 100000
    exact_mod_cast this
  have hz1 : rustRound ((0 : ℕ) * s.base_value * grade_multiplier Judgment.Cool) = 0 := by
    norm_num [rustRound]
  have hz2 : rustRound ((0 : ℕ) * s.base_value * grade_multiplier Judgment.Good) = 0 := by
    norm_num [rustRound]
  norm_num [h850, h100, hz1, hz2, rustRound, CLEAR_BONUS, MAX_CHAIN_BONUS]
  decide

/-- C2 witness: a 7-note perfect play scores exactly 1,000,000. -/
theorem perfect_play_total_score_witness :
    ScoreState.total_score
      { score := 0, chain := 7, max_chain := 7, great_count := 7,
        cool_count := 0, good_count := 0, miss_count := 0,
        total_notes := 7, base_value := 850000/7 } = 1000000 :=
  perfect_play_total_score _ (by norm_num) (by norm_num) (by norm_num)
    (by norm_num) (by norm_num) (by norm_num) (by norm_num [PLAY_SCORE_POOL])

/-- Play score never exceeds the 850,000 pool: the rounding of each
term can only exceed the real value by 1/2, and whenever the Cool or
Good term is large enough for its rounding to be nonzero, the lost
multiplier slack (0.2 resp. 0.5 of a base value) outweighs the
accumulated rounding gain. -/
theorem play_score_le_pool (s : ScoreState)
    (hn : 0 < s.total_notes)
    (hsum : s.great_count + s.cool_count + s.good_count ≤ s.total_notes)
    (hb : s.base_value = PLAY_SCORE_POOL / s.total_notes) :
    s.play_score ≤ 850000 := by
  have hn0 : (s.total_notes : ℚ) ≠ 0 := Nat.cast_ne_zero.mpr hn.ne'
  have hnpos : (0 : ℚ) < s.total_notes := by exact_mod_cast hn
  have hbpos : 0 ≤ s.base_value := by
    rw [hb, PLAY_SCORE_POOL]
    positivity
  set b := s.base_value with hbdef
  set g := s.great_count
  set c := s.cool_count
  set d := s.good_count
  set n := s.total_notes
  have hXge : (0 : ℚ) ≤ (g : ℚ) * b * grade_multiplier Judgment.Great := by
    rw [grade_multiplier]; positivity
  have hYge : (0 : ℚ) ≤ (c : ℚ) * b * grade_multiplier Judgment.Cool := by
    rw [grade_multiplier]; positivity
  have hZge : (0 : ℚ) ≤ (d : ℚ) * b * grade_multiplier Judgment.Good := by
    rw [grade_multiplier]; positivity
  set X := (g : ℚ) * b * grade_multiplier Judgment.Great with hXdef
  set Y := (c : ℚ) * b * grade_multiplier Judgment.Cool with hYdef
  set Z := (d : ℚ) * b * grade_multiplier Judgment.Good with hZdef
  set A := rustRound X with hAdef
  set B := rustRound Y with hBdef
  set C := rustRound Z with hCdef
  have hA0 : 0 ≤ A := rustRound_nonneg hXge
  have hB0 : 0 ≤ B := rustRound_nonneg hYge
  have hC0 : 0 ≤ C := rustRound_nonneg hZge
  have hnb : (n : ℚ) * b = 850000 := by
    rw [hb, PLAY_SCORE_POOL]
    field_simp
  have hsumq : (g : ℚ) + c + d ≤ n := by exact_mod_cast hsum
  -- the real play-score value already sits below the pool, with slack
  have hreal : X + Y + Z ≤ 850000 - (1/5) * c * b - (1/2) * d * b := by
    have hexp : X + Y + Z
        = ((g : ℚ) + c + d) * b - (1/5) * c * b - (1/2) * d * b := by
      rw [hXdef, hYdef, hZdef, grade_multiplier, grade_multiplier,
        grade_multiplier]
      ring
    rw [hexp]
    have : ((g : ℚ) + c + d) * b ≤ (n : ℚ) * b :=
      mul_le_mul_of_nonneg_right hsumq hbpos
    linarith [hnb]
  have key : A + B + C ≤ 850000 := by
    have hAle : (A : ℚ) ≤ X + 1/2 := rustRound_le_add_half hXge
    have hBle : (B : ℚ) ≤ Y + 1/2 := rustRound_le_add_half hYge
    have hCle : (C : ℚ) ≤ Z + 1/2 := rustRound_le_add_half hZge
    rcases lt_or_le Y (1/2) with hYs | hYl
    · rcases lt_or_le Z (1/2) with hZs | hZl
      · -- both small: Cool and Good roundings vanish
        have hBz : B = 0 := rustRound_eq_zero hYge hYs
        have hCz : C = 0 := rustRound_eq_zero hZge hZs
        have hXle : X ≤ 850000 := by
          have hYZ : 0 ≤ (1/5 : ℚ) * c * b + (1/2) * d * b := by positivity
          linarith
        have : A ≤ 850000 := by
          have h1 : (A : ℚ) ≤ X + 1/2 := hAle
          have h2 : (A : ℚ) < 850001 := by linarith
          exact_mod_cast Int.lt_add_one_iff.mp (by exact_mod_cast h2)
        omega
      · -- Good term large: its slack (1/2)db = Z is at least 1/2
        have hslack : (1/2 : ℚ) * d * b = Z := by
          rw [hZdef, grade_multiplier]; ring
        have hc5 : (0 : ℚ) ≤ (1/5) * c * b := by positivity
        have hBz : B = 0 := rustRound_eq_zero hYge hYs
        have hq : (A : ℚ) + B + C < 850001 := by
          have hr := hreal
          rw [hslack] at hr
          push_cast [hBz]
          linarith
        have : A + B + C < 850001 := by exact_mod_cast hq
        omega
    · -- Cool term large: its slack (1/5)cb = Y/4 is at least 1/8
      have hslack : (1/5 : ℚ) * c * b = Y / 4 := by
        rw [hYdef, grade_multiplier]; ring
      rcases lt_or_le Z (1/2) with hZs | hZl
      · have hCz : C = 0 := rustRound_eq_zero hZge hZs
        have hd2 : 0 ≤ (1/2 : ℚ) * d * b := by positivity
        have hq : (A : ℚ) + B + C < 850001 := by
          have := hreal
          rw [hslack] at this
          push_cast [hCz]
          linarith
        have : A + B + C < 850001 := by exact_mod_cast hq
        omega
      · have hslack2 : (1/2 : ℚ) * d * b = Z := by
          rw [hZdef, grade_multiplier]; ring
        have hq : (A : ℚ) + B + C < 850001 := by
          have := hreal
          rw [hslack, hslack2] at this
          linarith
        have : A + B + C < 850001 := by exact_mod_cast hq
        omega
  unfold ScoreState.play_score
  have hsplit : A.toNat + B.toNat + C.toNat = (A + B + C).toNat := by
    omega
  rw [← hAdef, ← hBdef, ← hCdef]
  calc A.toNat + B.toNat + C.toNat = (A + B + C).toNat := hsplit
    _ ≤ 850000 := by omega

/-- C5: for any grade counts with at most `total_notes` non-misses and
any `max_chain`, the total score is at most 1,000,000. -/
theorem total_score_upper_bound (s : ScoreState)
    (hn : 0 < s.total_notes)
    (hsum : s.great_count + s.cool_count + s.good_count ≤ s.total_notes)
    (hb : s.base_value = PLAY_SCORE_POOL / s.total_notes) :
    s.total_score ≤ 1000000 := by
  have hplay := play_score_le_pool s hn hsum hb
  have hchain : s.chain_bonus ≤ 100000 := by
    unfold ScoreState.chain_bonus
    split
    · omega
    · exact le_trans (min_le_right _ _) (by rw [MAX_CHAIN_BONUS])
  unfold ScoreState.total_score ScoreState.clear_bonus
  rw [CLEAR_BONUS]
  omega

/-- C5 witness: 2 Greats, 1 Cool, 1 Good on a 4-note chart with a
large claimed max chain stays at or below 1,000,000. -/
theorem total_score_upper_bound_witness :
    ScoreState.total_score
      { score := 0, chain := 0, max_chain := 5, great_count := 2,
        cool_count := 1, good_count := 1, miss_count := 3,
        total_notes := 4, base_value := 850000/4 } ≤ 1000000 :=
  total_score_upper_bound _ (by norm_num) (by norm_num)
    (by norm_num [PLAY_SCORE_POOL])

/-- C6: a Miss resets the chain to 0; a non-miss advances the chain by
1 below 10, by 2 in [10, 100), by 4 at or above 100 (the tier read
from the pre-increment chain), and max_chain records the maximum; 11
straight non-misses from chain 0 produce 1,...,9,10,12 (the scanned
list below includes the initial chain 0). -/
theorem chain_update_spec :
    (∀ s : ScoreState, (update_score_step s Judgment.Miss).chain = 0)
    ∧ (∀ (s : ScoreState) (j : Judgment), j ≠ Judgment.Miss →
        (update_score_step s j).chain =
          s.chain + (if s.chain < 10 then 1 else if s.chain < 100 then 2 else 4)
        ∧ (update_score_step s j).max_chain =
          max s.max_chain ((update_score_step s j).chain))
    ∧ ((List.replicate 11 Judgment.Great).scanl update_score_step
        { score := 0, chain := 0, max_chain := 0, great_count := 0,
          cool_count := 0, good_count := 0, miss_count := 0,
          total_notes := 11, base_value := 0 }).map ScoreState.chain
      = [0, 1, 2, 3, 4, 5, 6, 7, 8, 9, 10, 12] := by
  refine ⟨?_, ?_, ?_⟩
  · intro s
    simp [update_score_step]
  · intro s j hj
    have hchain : (update_score_step s j).chain =
        s.chain + (if s.chain < 10 then 1 else if s.chain < 100 then 2 else 4) := by
      cases j with
      | Miss => exact absurd rfl hj
      | Great =>
        simp only [update_score_step, ScoreState.chain_tier, chain_increment,
          FEVER_THRESHOLD, TRANCE_THRESHOLD]
        split_ifs <;> simp_all <;> omega
      | Cool =>
        simp only [update_score_step, ScoreState.chain_tier, chain_increment,
          FEVER_THRESHOLD, TRANCE_THRESHOLD]
        split_ifs <;> simp_all <;> omega
      | Good =>
        simp only [update_score_step, ScoreState.chain_tier, chain_increment,
          FEVER_THRESHOLD, TRANCE_THRESHOLD]
        split_ifs <;> simp_all <;> omega
    refine ⟨hchain, ?_⟩
    cases j with
    | Miss => exact absurd rfl hj
    | Great => simp [update_score_step]
    | Cool => simp [update_score_step]
    | Good => simp [update_score_step]
  · have e1 : update_score_step
        { score := 0, chain := 0, max_chain := 0, great_count := 0,
          cool_count := 0, good_count := 0, miss_count := 0,
          total_notes := 11, base_value := 0 } Judgment.Great =
        { score := 0, chain := 1, max_chain := 1, great_count := 1,
          cool_count := 0, good_count := 0, miss_count := 0,
          total_notes := 11, base_value := 0 } := by
      simp [update_score_step, ScoreState.chain_tier, chain_increment,
        grade_multiplier, rustRound, FEVER_THRESHOLD, TRANCE_THRESHOLD]
      all_goals norm_num
    have e2 : update_score_step
        { score := 0, chain := 1, max_chain := 1, great_count := 1,
          cool_count := 0, good_count := 0, miss_count := 0,
          total_notes := 11, base_value := 0 } Judgment.Great =
        { score := 0, chain := 2, max_chain := 2, great_count := 2,
          cool_count := 0, good_count := 0, miss_count := 0,
          total_notes := 11, base_value := 0 } := by
      simp [update_score_step, ScoreState.chain_tier, chain_increment,
        grade_multiplier, rustRound, FEVER_THRESHOLD, TRANCE_THRESHOLD]
      all_goals norm_num
    have e3 : update_score_step
        { score := 0, chain := 2, max_chain := 2, great_count := 2,
          cool_count := 0, good_count := 0, miss_count := 0,
          total_notes := 11, base_value := 0 } Judgment.Great =
        { score := 0, chain := 3, max_chain := 3, great_count := 3,
          cool_count := 0, good_count := 0, miss_count := 0,
          total_notes := 11, base_value := 0 } := by
      simp [update_score_step, ScoreState.chain_tier, chain_increment,
        grade_multiplier, rustRound, FEVER_THRESHOLD, TRANCE_THRESHOLD]
      all_goals norm_num
    have e4 : update_score_step
        { score := 0, chain := 3, max_chain := 3, great_count := 3,
          cool_count := 0, good_count := 0, miss_count := 0,
          total_notes := 11, base_value := 0 } Judgment.Great =
        { score := 0, chain := 4, max_chain := 4, great_count := 4,
          cool_count := 0, good_count := 0, miss_count := 0,
          total_notes := 11, base_value := 0 } := by
      simp [update_score_step, ScoreState.chain_tier, chain_increment,
        grade_multiplier, rustRound, FEVER_THRESHOLD, TRANCE_THRESHOLD]
      all_goals norm_num
    have e5 : update_score_step
        { score := 0, chain := 4, max_chain := 4, great_count := 4,
          cool_count := 0, good_count := 0, miss_count := 0,
          total_notes := 11, base_value := 0 } Judgment.Great =
        { score := 0, chain := 5, max_chain := 5, great_count := 5,
          cool_count := 0, good_count := 0, miss_count := 0,
          total_notes := 11, base_value := 0 } := by
      simp [update_score_step, ScoreState.chain_tier, chain_increment,
        grade_multiplier, rustRound, FEVER_THRESHOLD, TRANCE_THRESHOLD]
      all_goals norm_num
    have e6 : update_score_step
        { score := 0, chain := 5, max_chain := 5, great_count := 5,
          cool_count := 0, good_count := 0, miss_count := 0,
          total_notes := 11, base_value := 0 } Judgment.Great =
        { score := 0, chain := 6, max_chain := 6, great_count := 6,
          cool_count := 0, good_count := 0, miss_count := 0,
          total_notes := 11, base_value := 0 } := by
      simp [update_score_step, ScoreState.chain_tier, chain_increment,
        grade_multiplier, rustRound, FEVER_THRESHOLD, TRANCE_THRESHOLD]
      all_goals norm_num
    have e7 : update_score_step
        { score := 0, chain := 6, max_chain := 6, great_count := 6,
          cool_count := 0, good_count := 0, miss_count := 0,
          total_notes := 11, base_value := 0 } Judgment.Great =
        { score := 0, chain := 7, max_chain := 7, great_count := 7,
          cool_count := 0, good_count := 0, miss_count := 0,
          total_notes := 11, base_value := 0 } := by
      simp [update_score_step, ScoreState.chain_tier, chain_increment,
        grade_multiplier, rustRound, FEVER_THRESHOLD, TRANCE_THRESHOLD]
      all_goals norm_num
    have e8 : update_score_step
        { score := 0, chain := 7, max_chain := 7, great_count := 7,
          cool_count := 0, good_count := 0, miss_count := 0,
          total_notes := 11, base_value := 0 } Judgment.Great =
        { score := 0, chain := 8, max_chain := 8, great_count := 8,
          cool_count := 0, good_count := 0, miss_count := 0,
          total_notes := 11, base_value := 0 } := by
      simp [update_score_step, ScoreState.chain_tier, chain_increment,
        grade_multiplier, rustRound, FEVER_THRESHOLD, TRANCE_THRESHOLD]
      all_goals norm_num
    have e9 : update_score_step
        { score := 0, chain := 8, max_chain := 8, great_count := 8,
          cool_count := 0, good_count := 0, miss_count := 0,
          total_notes := 11, base_value := 0 } Judgment.Great =
        { score := 0, chain := 9, max_chain := 9, great_count := 9,
          cool_count := 0, good_count := 0, miss_count := 0,
          total_notes := 11, base_value := 0 } := by
      simp [update_score_step, ScoreState.chain_tier, chain_increment,
        grade_multiplier, rustRound, FEVER_THRESHOLD, TRANCE_THRESHOLD]
      all_goals norm_num
    have e10 : update_score_step
        { score := 0, chain := 9, max_chain := 9, great_count := 9,
          cool_count := 0, good_count := 0, miss_count := 0,
          total_notes := 11, base_value := 0 } Judgment.Great =
        { score := 0, chain := 10, max_chain := 10, great_count := 10,
          cool_count := 0, good_count := 0, miss_count := 0,
          total_notes := 11, base_value := 0 } := by
      simp [update_score_step, ScoreState.chain_tier, chain_increment,
        grade_multiplier, rustRound, FEVER_THRESHOLD, TRANCE_THRESHOLD]
      all_goals norm_num
    have e11 : update_score_step
        { score := 0, chain := 10, max_chain := 10, great_count := 10,
          cool_count := 0, good_count := 0, miss_count := 0,
          total_notes := 11, base_value := 0 } Judgment.Great =
        { score := 0, chain := 12, max_chain := 12, great_count := 11,
          cool_count := 0, good_count := 0, miss_count := 0,
          total_notes := 11, base_value := 0 } := by
      simp [update_score_step, ScoreState.chain_tier, chain_increment,
        grade_multiplier, rustRound, FEVER_THRESHOLD, TRANCE_THRESHOLD]
      all_goals norm_num
    simp only [List.replicate, List.scanl, e1, e2, e3, e4, e5, e6, e7, e8, e9, e10, e11, List.map]

/-- C6 witness: one Great from a fresh 11-note state takes the chain
from 0 to 1 while max_chain becomes 1. -/
theorem chain_update_spec_witness :
    (update_score_step
      { score := 0, chain := 0, max_chain := 0, great_count := 0,
        cool_count := 0, good_count := 0, miss_count := 0,
        total_notes := 11, base_value := 0 } Judgment.Great).chain = 1 := by
  have h := (chain_update_spec.2.1
    { score := 0, chain := 0, max_chain := 0, great_count := 0,
      cool_count := 0, good_count := 0, miss_count := 0,
      total_notes := 11, base_value := 0 } Judgment.Great (by decide)).1
  simpa using h

/-! Claims about judgment.rs and notes.rs. -/

/-- C3 counterexample: at current_beat 10.2 and bpm 60 a note with
target beat 10 is expired (10.2 > 10 + 0.1). Evaluating the
miss-detection pass on every note kind of the code (with its spawn
components) emits no Great anywhere: AdLib despawns silently, a Hold
emits two Misses, every other kind emits one Miss. In particular no
note kind behaves like the claimed Rest (there is no Rest variant in
NoteKind). -/
theorem rest_pass_great_counterexample :
    despawn_missed_note (51/5) 60 10 NoteKind.AdLib
      (spawn_hold_state NoteKind.AdLib) (spawn_adlib_marker NoteKind.AdLib)
      = (true, [])
    ∧ despawn_missed_note (51/5) 60 10 NoteKind.Tap
      (spawn_hold_state NoteKind.Tap) (spawn_adlib_marker NoteKind.Tap)
      = (true, [Judgment.Miss])
    ∧ despawn_missed_note (51/5) 60 10 (NoteKind.Hold 12)
      (spawn_hold_state (NoteKind.Hold 12))
      (spawn_adlib_marker (NoteKind.Hold 12))
      = (true, [Judgment.Miss, Judgment.Miss])
    ∧ despawn_missed_note (51/5) 60 10 (NoteKind.Slide SlideDirection.N)
      (spawn_hold_state (NoteKind.Slide SlideDirection.N))
      (spawn_adlib_marker (NoteKind.Slide SlideDirection.N))
      = (true, [Judgment.Miss])
    ∧ despawn_missed_note (51/5) 60 10 NoteKind.Beat
      (spawn_hold_state NoteKind.Beat) (spawn_adlib_marker NoteKind.Beat)
      = (true, [Judgment.Miss])
    ∧ despawn_missed_note (51/5) 60 10 NoteKind.Scratch
      (spawn_hold_state NoteKind.Scratch)
      (spawn_adlib_marker NoteKind.Scratch)
      = (true, [Judgment.Miss])
    ∧ despawn_missed_note (51/5) 60 10 NoteKind.Critical
      (spawn_hold_state NoteKind.Critical)
      (spawn_adlib_marker NoteKind.Critical)
      = (true, [Judgment.Miss])
    ∧ despawn_missed_note (51/5) 60 10
      (NoteKind.DualSlide SlideDirection.N SlideDirection.E)
      (spawn_hold_state (NoteKind.DualSlide SlideDirection.N SlideDirection.E))
      (spawn_adlib_marker (NoteKind.DualSlide SlideDirection.N SlideDirection.E))
      = (true, [Judgment.Miss]) := by
  refine ⟨?_, ?_, ?_, ?_, ?_, ?_, ?_, ?_⟩ <;>
    (norm_num [despawn_missed_note, spawn_hold_state, spawn_adlib_marker,
      ms_to_beats, MISS_WINDOW_MS]
     try decide)

/-- C3 amended: the miss-detection pass never emits a Great for any
note kind, hold state, or marker; an expired AdLib note (the code's
only pass-without-penalty kind; there is no Rest kind) despawns with
no judgment at all, an expired non-held Hold despawns with two Misses,
and an expired Tap despawns with one Miss. -/
theorem despawn_missed_rest_corrected :
    (∀ (cb bpm tb : ℚ) (k : NoteKind) (hs : Option HoldState) (am : Bool),
      Judgment.Great ∉ (despawn_missed_note cb bpm tb k hs am).2)
    ∧ (∀ cb bpm tb : ℚ, cb > tb + ms_to_beats MISS_WINDOW_MS bpm →
        despawn_missed_note cb bpm tb NoteKind.AdLib
          (spawn_hold_state NoteKind.AdLib)
          (spawn_adlib_marker NoteKind.AdLib) = (true, [])
        ∧ (∀ e : ℚ, despawn_missed_note cb bpm tb (NoteKind.Hold e)
            (spawn_hold_state (NoteKind.Hold e))
            (spawn_adlib_marker (NoteKind.Hold e))
            = (true, [Judgment.Miss, Judgment.Miss]))
        ∧ despawn_missed_note cb bpm tb NoteKind.Tap
          (spawn_hold_state NoteKind.Tap)
          (spawn_adlib_marker NoteKind.Tap) = (true, [Judgment.Miss])) := by
  constructor
  · intro cb bpm tb k hs am
    by_cases hout : cb > tb + ms_to_beats MISS_WINDOW_MS bpm
    · by_cases hheld : hs = some HoldState.Held
      · simp [despawn_missed_note, hout, hheld]
      · by_cases ham : am = true
        · simp [despawn_missed_note, hout, hheld, ham]
        · cases k <;> simp [despawn_missed_note, hout, hheld, ham]
    · simp [despawn_missed_note, hout]
  · intro cb bpm tb h
    refine ⟨?_, ?_, ?_⟩ <;>
      simp [despawn_missed_note, spawn_hold_state, spawn_adlib_marker, h]

/-- C3 amended witness: the characterization at current_beat 10.2,
bpm 60, target beat 10 and hold end beat 12. -/
theorem despawn_missed_rest_corrected_witness :
    despawn_missed_note (51/5) 60 10 NoteKind.AdLib
      (spawn_hold_state NoteKind.AdLib)
      (spawn_adlib_marker NoteKind.AdLib) = (true, [])
    ∧ despawn_missed_note (51/5) 60 10 (NoteKind.Hold 12)
      (spawn_hold_state (NoteKind.Hold 12))
      (spawn_adlib_marker (NoteKind.Hold 12))
      = (true, [Judgment.Miss, Judgment.Miss]) := by
  have h := despawn_missed_rest_corrected.2 (51/5) 60 10
    (by norm_num [ms_to_beats, MISS_WINDOW_MS])
  exact ⟨h.1, h.2.1 12⟩

/-- C10: an expired AdLib note (spawned with the AdLibMarker and no
HoldState) is despawned by the miss-detection pass with no
JudgmentResult, and scoring an empty judgment list changes nothing:
no Miss, no count change, no chain reset. -/
theorem adlib_expiry_silent (cb bpm tb : ℚ)
    (h : cb > tb + ms_to_beats MISS_WINDOW_MS bpm) :
    despawn_missed_note cb bpm tb NoteKind.AdLib
      (spawn_hold_state NoteKind.AdLib)
      (spawn_adlib_marker NoteKind.AdLib) = (true, [])
    ∧ ∀ s : ScoreState, update_score s [] = s := by
  constructor
  · simp [despawn_missed_note, spawn_hold_state, spawn_adlib_marker, h]
  · intro s
    rfl

/-- C10 witness: an AdLib note at beat 10 expired at current_beat 10.2
(bpm 60) despawns silently and leaves a concrete score state
untouched. -/
theorem adlib_expiry_silent_witness :
    despawn_missed_note (51/5) 60 10 NoteKind.AdLib
      (spawn_hold_state NoteKind.AdLib)
      (spawn_adlib_marker NoteKind.AdLib) = (true, [])
    ∧ update_score
      { score := 5, chain := 3, max_chain := 4, great_count := 1,
        cool_count := 1, good_count := 0, miss_count := 0,
        total_notes := 9, base_value := 850000/9 } []
      = { score := 5, chain := 3, max_chain := 4, great_count := 1,
          cool_count := 1, good_count := 0, miss_count := 0,
          total_notes := 9, base_value := 850000/9 } := by
  have h := adlib_expiry_silent (51/5) 60 10
    (by norm_num [ms_to_beats, MISS_WINDOW_MS])
  exact ⟨h.1, h.2 _⟩

/-- C4 counterexample: a note spawned with progress 0 (spawn_beat 0,
travel 3 beats) has progress 1/2 after the frame update at
current_beat 1.5 — the per-frame update does not leave the progress at
its spawn value. -/
theorem note_progress_fixed_counterexample :
    move_note (3/2) { target_beat := 3, spawn_beat := 0, travel_beats := 3 }
      spawn_progress = 1/2
    ∧ spawn_progress = 0
    ∧ (1/2 : ℚ) ≠ 0 := by
  refine ⟨?_, rfl, by norm_num⟩
  norm_num [move_note, spawn_progress]

/-- C4 amended: move_notes recomputes every live note's progress each
frame from the conductor beat alone — the stored progress is ignored,
it equals the spawn value 0 only while current_beat is at most the
spawn beat, and it strictly increases as current_beat advances: the
notes travel along the track (the playhead is fixed at progress 1). -/
theorem note_progress_recomputed :
    (∀ (cb : ℚ) (t : NoteTiming) (p q : ℚ),
      move_note cb t p = move_note cb t q)
    ∧ (∀ (cb : ℚ) (t : NoteTiming) (p : ℚ), 0 < t.travel_beats →
        cb ≤ t.spawn_beat → move_note cb t p = spawn_progress)
    ∧ (∀ (t : NoteTiming) (p cb1 cb2 : ℚ), 0 < t.travel_beats →
        t.spawn_beat ≤ cb1 → cb1 < cb2 →
        move_note cb1 t p < move_note cb2 t p) := by
  refine ⟨fun _ _ _ _ => rfl, ?_, ?_⟩
  · intro cb t p htv hcb
    unfold move_note spawn_progress
    rw [max_eq_right]
    exact div_nonpos_of_nonpos_of_nonneg (by linarith) htv.le
  · intro t p cb1 cb2 htv h1 h12
    unfold move_note
    have hv1 : (0 : ℚ) ≤ (cb1 - t.spawn_beat) / t.travel_beats :=
      div_nonneg (by linarith) htv.le
    have hv2 : (0 : ℚ) ≤ (cb2 - t.spawn_beat) / t.travel_beats :=
      div_nonneg (by linarith) htv.le
    rw [max_eq_left hv1, max_eq_left hv2]
    have hlt := mul_lt_mul_of_pos_right
      (show cb1 - t.spawn_beat < cb2 - t.spawn_beat by linarith)
      (inv_pos.mpr htv)
    rw [div_eq_mul_inv, div_eq_mul_inv]
    exact hlt

/-- C4 amended witness: a note with spawn beat 0 and travel 3 moves
from progress 0 at current_beat 0 to a strictly larger progress at
current_beat 1.5. -/
theorem note_progress_recomputed_witness :
    move_note 0 { target_beat := 3, spawn_beat := 0, travel_beats := 3 } 0
      < move_note (3/2)
        { target_beat := 3, spawn_beat := 0, travel_beats := 3 } 0 :=
  note_progress_recomputed.2.2
    { target_beat := 3, spawn_beat := 0, travel_beats := 3 } 0 0 (3/2)
    (by norm_num) (by norm_num) (by norm_num)

/-! Claims about conductor.rs. -/

theorem advance_timing_points_current_beat (c : SongConductor) (t a : ℚ) :
    (advance_timing_points c t a).current_beat = c.current_beat := by
  unfold advance_timing_points
  split
  · rfl
  · split_ifs <;> rfl

theorem advance_timing_points_drift_frames (c : SongConductor) (t a : ℚ) :
    (advance_timing_points c t a).drift_frames = c.drift_frames := by
  unfold advance_timing_points
  split
  · rfl
  · split_ifs <;> rfl

theorem run_conductor_one :
    run_conductor 1 =
    { current_beat := 100, bpm := 60, playing := true,
      time_samples := [(0, 100)], slope := 1, intercept := 100,
      timing_points := [], drift_frames := 0 } := by
  show update_conductor (SongConductor.new 60) 0 100 0 = _
  norm_num [update_conductor, SongConductor.new, audio_beats_of,
    pushed_samples, linear_regression, advance_timing_points, MAX_SAMPLES,
    MIN_REGRESSION_SPAN, DRIFT_THRESHOLD_SECS, DRIFT_FRAME_LIMIT,
    F64_EPSILON, abs_of_nonneg, abs_of_nonpos]

theorem run_conductor_two :
    run_conductor 2 =
    { current_beat := 100, bpm := 60, playing := true,
      time_samples := [(0, 100), (1/20, 1/20)], slope := 1, intercept := 0,
      timing_points := [], drift_frames := 0 } := by
  have hstep : run_conductor 2 = update_conductor (run_conductor 1)
      (1/20) (1/20) 0 := by
    simp [run_conductor, drift_trace]
  rw [hstep, run_conductor_one]
  norm_num [update_conductor, audio_beats_of, pushed_samples,
    linear_regression, advance_timing_points, MAX_SAMPLES,
    MIN_REGRESSION_SPAN, DRIFT_THRESHOLD_SECS, DRIFT_FRAME_LIMIT,
    F64_EPSILON, abs_of_nonneg, abs_of_nonpos]

theorem run_conductor_three :
    run_conductor 3 =
    { current_beat := 100, bpm := 60, playing := true,
      time_samples := [(0, 100), (1/20, 1/20), (1/10, 1/10)],
      slope := -999, intercept := 250/3,
      timing_points := [], drift_frames := 1 } := by
  have hstep : run_conductor 3 = update_conductor (run_conductor 2)
      (1/10) (1/10) 0 := by
    simp [run_conductor, drift_trace]
  rw [hstep, run_conductor_two]
  norm_num [update_conductor, audio_beats_of, pushed_samples,
    linear_regression, advance_timing_points, MAX_SAMPLES,
    MIN_REGRESSION_SPAN, DRIFT_THRESHOLD_SECS, DRIFT_FRAME_LIMIT,
    F64_EPSILON, abs_of_nonneg, abs_of_nonpos]

theorem run_conductor_four :
    run_conductor 4 =
    { current_beat := 100, bpm := 60, playing := true,
      time_samples := [(0, 100), (1/20, 1/20), (1/10, 1/10), (3/20, 3/20)],
      slope := -599, intercept := 70,
      timing_points := [], drift_frames := 2 } := by
  have hstep : run_conductor 4 = update_conductor (run_conductor 3)
      (3/20) (3/20) 0 := by
    simp [run_conductor, drift_trace]
  rw [hstep, run_conductor_three]
  norm_num [update_conductor, audio_beats_of, pushed_samples,
    linear_regression, advance_timing_points, MAX_SAMPLES,
    MIN_REGRESSION_SPAN, DRIFT_THRESHOLD_SECS, DRIFT_FRAME_LIMIT,
    F64_EPSILON, abs_of_nonneg, abs_of_nonpos]

theorem run_conductor_five :
    run_conductor 5 =
    { current_beat := 1/5, bpm := 60, playing := true,
      time_samples := [(1/5, 1/5)], slope := 1, intercept := 0,
      timing_points := [], drift_frames := 0 } := by
  have hstep : run_conductor 5 = update_conductor (run_conductor 4)
      (1/5) (1/5) 0 := by
    simp [run_conductor, drift_trace]
  rw [hstep, run_conductor_four]
  norm_num [update_conductor, audio_beats_of, pushed_samples,
    linear_regression, advance_timing_points, MAX_SAMPLES,
    MIN_REGRESSION_SPAN, DRIFT_THRESHOLD_SECS, DRIFT_FRAME_LIMIT,
    F64_EPSILON, abs_of_nonneg, abs_of_nonpos]

/-- C1 counterexample: after four updates of drift_trace the conductor
reads beat 100; the fifth update (the third consecutive drifting
frame) performs the hard resync, which forces current_beat back down
to the raw audio beat 1/5 — current_beat is not monotonically
nondecreasing across the hard-resync branch. -/
theorem conductor_monotonic_counterexample :
    (run_conductor 4).current_beat = 100
    ∧ (run_conductor 5).current_beat = 1/5
    ∧ ¬ ((run_conductor 4).current_beat ≤ (run_conductor 5).current_beat) := by
  rw [run_conductor_four, run_conductor_five]
  norm_num

/-- C1 amended: every conductor update either leaves current_beat
nondecreasing (warm-up, normal regression, and timing-point branches
all take a max with the previous value) or is a hard resync, which
forces current_beat to exactly the offset-adjusted audio beat — a
value that can lie below the previous current_beat. -/
theorem conductor_beat_monotone_or_resync (c : SongConductor)
    (t clk off : ℚ) :
    c.current_beat ≤ (update_conductor c t clk off).current_beat
    ∨ (update_conductor c t clk off).current_beat
      = audio_beats_of c clk off := by
  simp only [update_conductor]
  split_ifs with h1 h2 h3
  · left
    exact le_max_right _ _
  · right
    rfl
  · left
    rw [advance_timing_points_current_beat]
    exact le_max_right _ _
  · left
    rw [advance_timing_points_current_beat]
    exact le_max_right _ _

/-- C7 counterexample: in drift_trace the drift exceeds the 50 ms
threshold from the third update onward. After the first two drifting
updates the counter reads 1 then 2, but the third consecutive drifting
update (update five) already performs the hard resync — window
re-seeded to the single current sample, counter back to 0, and
current_beat forced to the audio beat — instead of merely incrementing
the counter to 3 and resyncing on a fourth drifting frame. -/
theorem drift_resync_counterexample :
    (run_conductor 3).drift_frames = 1
    ∧ (run_conductor 4).drift_frames = 2
    ∧ (run_conductor 5).drift_frames = 0
    ∧ (run_conductor 5).time_samples = [(1/5, 1/5)]
    ∧ (run_conductor 5).current_beat = 1/5
    ∧ ¬ ((run_conductor 5).drift_frames = 3 ∧ (run_conductor 5).current_beat = 100) := by
  rw [run_conductor_three, run_conductor_four, run_conductor_five]
  norm_num

/-- C7 amended: past warm-up, when the frame drifts beyond
DRIFT_THRESHOLD_SECS, the counter is first incremented; if the
incremented counter reaches DRIFT_FRAME_LIMIT (i.e. on the third
consecutive drifting frame, not the fourth) the conductor hard-resyncs
— window cleared and re-seeded with the current sample, slope bpm/60,
intercept through the current sample, counter reset to 0, and
current_beat forced to the offset-adjusted audio beat; on the first
two drifting frames only the counter increments and current_beat takes
the monotone max with the regression prediction. -/
theorem drift_resync_spec (c : SongConductor) (t clk off : ℚ)
    (hspan : ¬ (t - ((pushed_samples c t (audio_beats_of c clk off)).headD
      (0, 0)).1 < MIN_REGRESSION_SPAN))
    (hdrift : drift_secs_of c t (audio_beats_of c clk off)
      > DRIFT_THRESHOLD_SECS) :
    (c.drift_frames + 1 ≥ DRIFT_FRAME_LIMIT →
      update_conductor c t clk off =
        { current_beat := audio_beats_of c clk off
          bpm := c.bpm
          playing := true
          time_samples := [(t, audio_beats_of c clk off)]
          slope := c.bpm / 60
          intercept := audio_beats_of c clk off - c.bpm / 60 * t
          timing_points := c.timing_points
          drift_frames := 0 })
    ∧ (c.drift_frames + 1 < DRIFT_FRAME_LIMIT →
      (update_conductor c t clk off).drift_frames = c.drift_frames + 1
      ∧ (update_conductor c t clk off).current_beat
        = max (predicted_beat_of c t (audio_beats_of c clk off))
            c.current_beat) := by
  have hdrift2 : |predicted_beat_of c t (audio_beats_of c clk off)
      - audio_beats_of c clk off| / (c.bpm / 60) > DRIFT_THRESHOLD_SECS := by
    simpa [drift_secs_of] using hdrift
  constructor
  · intro hge
    simp only [update_conductor, predicted_beat_of] at hdrift2 ⊢
    rw [if_neg hspan, if_pos hdrift2, if_pos hge]
  · intro hlt
    simp only [update_conductor, predicted_beat_of] at hdrift2 ⊢
    rw [if_neg hspan, if_pos hdrift2, if_neg (not_le.mpr hlt)]
    rw [advance_timing_points_drift_frames, advance_timing_points_current_beat]
    exact ⟨rfl, rfl⟩

/-- C7 amended witness: applying the resync characterization to the
conductor state reached after four updates of drift_trace (counter at
2) at the fifth input: the incremented counter reaches the limit, and
the update equals the fully resynced state. -/
theorem drift_resync_spec_witness :
    update_conductor
      { current_beat := 100, bpm := 60, playing := true,
        time_samples := [(0, 100), (1/20, 1/20), (1/10, 1/10), (3/20, 3/20)],
        slope := -599, intercept := 70,
        timing_points := [], drift_frames := 2 } (1/5) (1/5) 0 =
    { current_beat := 1/5, bpm := 60, playing := true,
      time_samples := [(1/5, 1/5)], slope := 1, intercept := 0,
      timing_points := [], drift_frames := 0 } := by
  have h := (drift_resync_spec
    { current_beat := 100, bpm := 60, playing := true,
      time_samples := [(0, 100), (1/20, 1/20), (1/10, 1/10), (3/20, 3/20)],
      slope := -599, intercept := 70,
      timing_points := [], drift_frames := 2 } (1/5) (1/5) 0
    (by norm_num [pushed_samples, audio_beats_of, MAX_SAMPLES,
      MIN_REGRESSION_SPAN])
    (by norm_num [drift_secs_of, predicted_beat_of, pushed_samples,
      audio_beats_of, linear_regression, F64_EPSILON, MAX_SAMPLES,
      DRIFT_THRESHOLD_SECS, abs_of_nonneg, abs_of_nonpos])).1
    (by norm_num [DRIFT_FRAME_LIMIT])
  rw [h]
  norm_num [audio_beats_of]

/-! Claim about beatmap.rs SlideDirection. -/

theorem sqrt_two_inv_pos : (0 : ℝ) < (Real.sqrt 2)⁻¹ :=
  inv_pos.mpr (Real.sqrt_pos.mpr (by norm_num))

theorem sqrt_two_inv_sq : ((Real.sqrt 2)⁻¹ : ℝ) ^ 2 = 1/2 := by
  rw [inv_pow, Real.sq_sqrt (by norm_num : (0:ℝ) ≤ 2)]
  norm_num

theorem from_vec2_to_vec2_E :
    SlideDirection.from_vec2 (SlideDirection.to_vec2 SlideDirection.E)
      = some SlideDirection.E := by
  have hangle : rustAtan2 (0 : ℝ) (1 : ℝ) = 0 := by
    unfold rustAtan2
    rw [if_pos (by norm_num : (0:ℝ) < 1)]
    norm_num
  simp only [SlideDirection.to_vec2, SlideDirection.from_vec2]
  rw [if_neg (by norm_num : ¬ ((1:ℝ)^2 + (0:ℝ)^2 < 1/100))]
  rw [hangle]
  have h1 : (0 : ℝ) + Real.pi/8 = (1/8) * Real.pi := by ring
  rw [h1]
  have h2 : ((1/8) * Real.pi) / (2 * Real.pi) = (1/16 : ℝ) := by
    field_simp
    ring
  have hrem : remEuclid ((1/8) * Real.pi) (2 * Real.pi) = (1/8) * Real.pi := by
    unfold remEuclid
    rw [h2]
    norm_num
  rw [hrem]
  have h3 : ((1/8) * Real.pi) / (Real.pi/4) = (1/2 : ℝ) := by
    field_simp [Real.pi_ne_zero]
    ring
  rw [h3]
  norm_num

theorem from_vec2_to_vec2_NE :
    SlideDirection.from_vec2 (SlideDirection.to_vec2 SlideDirection.NE)
      = some SlideDirection.NE := by
  have hangle : rustAtan2 ((Real.sqrt 2)⁻¹ : ℝ) ((Real.sqrt 2)⁻¹ : ℝ)
      = (1/4) * Real.pi := by
    unfold rustAtan2
    rw [if_pos sqrt_two_inv_pos, div_self (ne_of_gt sqrt_two_inv_pos),
      Real.arctan_one]
    ring
  simp only [SlideDirection.to_vec2, SlideDirection.from_vec2]
  rw [sqrt_two_inv_sq]
  rw [if_neg (by norm_num : ¬ ((1:ℝ)/2 + 1/2 < 1/100))]
  rw [hangle]
  have h1 : (1/4) * Real.pi + Real.pi/8 = (3/8) * Real.pi := by ring
  rw [h1]
  have h2 : ((3/8) * Real.pi) / (2 * Real.pi) = (3/16 : ℝ) := by
    field_simp
    ring
  have hrem : remEuclid ((3/8) * Real.pi) (2 * Real.pi) = (3/8) * Real.pi := by
    unfold remEuclid
    rw [h2]
    norm_num
  rw [hrem]
  have h3 : ((3/8) * Real.pi) / (Real.pi/4) = (3/2 : ℝ) := by
    field_simp [Real.pi_ne_zero]
    ring
  rw [h3]
  norm_num

theorem from_vec2_to_vec2_N :
    SlideDirection.from_vec2 (SlideDirection.to_vec2 SlideDirection.N)
      = some SlideDirection.N := by
  have hangle : rustAtan2 (1 : ℝ) (0 : ℝ) = (1/2) * Real.pi := by
    unfold rustAtan2
    rw [if_neg (lt_irrefl (0:ℝ)), if_neg (lt_irrefl (0:ℝ)),
      if_pos (by norm_num : (0:ℝ) < 1)]
    ring
  simp only [SlideDirection.to_vec2, SlideDirection.from_vec2]
  rw [if_neg (by norm_num : ¬ ((0:ℝ)^2 + (1:ℝ)^2 < 1/100))]
  rw [hangle]
  have h1 : (1/2) * Real.pi + Real.pi/8 = (5/8) * Real.pi := by ring
  rw [h1]
  have h2 : ((5/8) * Real.pi) / (2 * Real.pi) = (5/16 : ℝ) := by
    field_simp
    ring
  have hrem : remEuclid ((5/8) * Real.pi) (2 * Real.pi) = (5/8) * Real.pi := by
    unfold remEuclid
    rw [h2]
    norm_num
  rw [hrem]
  have h3 : ((5/8) * Real.pi) / (Real.pi/4) = (5/2 : ℝ) := by
    field_simp [Real.pi_ne_zero]
    ring
  rw [h3]
  norm_num
  rfl

theorem from_vec2_to_vec2_NW :
    SlideDirection.from_vec2 (SlideDirection.to_vec2 SlideDirection.NW)
      = some SlideDirection.NW := by
  have hneg : (-(Real.sqrt 2)⁻¹ : ℝ) < 0 := neg_neg_of_pos sqrt_two_inv_pos
  have hangle : rustAtan2 ((Real.sqrt 2)⁻¹ : ℝ) (-(Real.sqrt 2)⁻¹ : ℝ)
      = (3/4) * Real.pi := by
    unfold rustAtan2
    rw [if_neg (not_lt.mpr hneg.le), if_pos hneg,
      if_pos sqrt_two_inv_pos.le]
    rw [div_neg, div_self (ne_of_gt sqrt_two_inv_pos), Real.arctan_neg,
      Real.arctan_one]
    ring
  simp only [SlideDirection.to_vec2, SlideDirection.from_vec2]
  rw [neg_sq, sqrt_two_inv_sq]
  rw [if_neg (by norm_num : ¬ ((1:ℝ)/2 + 1/2 < 1/100))]
  rw [hangle]
  have h1 : (3/4) * Real.pi + Real.pi/8 = (7/8) * Real.pi := by ring
  rw [h1]
  have h2 : ((7/8) * Real.pi) / (2 * Real.pi) = (7/16 : ℝ) := by
    field_simp
    ring
  have hrem : remEuclid ((7/8) * Real.pi) (2 * Real.pi) = (7/8) * Real.pi := by
    unfold remEuclid
    rw [h2]
    norm_num
  rw [hrem]
  have h3 : ((7/8) * Real.pi) / (Real.pi/4) = (7/2 : ℝ) := by
    field_simp [Real.pi_ne_zero]
    ring
  rw [h3]
  norm_num
  rfl

theorem from_vec2_to_vec2_W :
    SlideDirection.from_vec2 (SlideDirection.to_vec2 SlideDirection.W)
      = some SlideDirection.W := by
  have hangle : rustAtan2 (0 : ℝ) (-1 : ℝ) = 1 * Real.pi := by
    unfold rustAtan2
    rw [if_neg (by norm_num : ¬ ((0:ℝ) < -1)),
      if_pos (by norm_num : (-1:ℝ) < 0),
      if_pos (le_refl (0:ℝ))]
    rw [zero_div, Real.arctan_zero]
    ring
  simp only [SlideDirection.to_vec2, SlideDirection.from_vec2]
  rw [if_neg (by norm_num : ¬ (((-1):ℝ)^2 + (0:ℝ)^2 < 1/100))]
  rw [hangle]
  have h1 : 1 * Real.pi + Real.pi/8 = (9/8) * Real.pi := by ring
  rw [h1]
  have h2 : ((9/8) * Real.pi) / (2 * Real.pi) = (9/16 : ℝ) := by
    field_simp
    ring
  have hrem : remEuclid ((9/8) * Real.pi) (2 * Real.pi) = (9/8) * Real.pi := by
    unfold remEuclid
    rw [h2]
    norm_num
  rw [hrem]
  have h3 : ((9/8) * Real.pi) / (Real.pi/4) = (9/2 : ℝ) := by
    field_simp [Real.pi_ne_zero]
    ring
  rw [h3]
  norm_num
  rfl

theorem from_vec2_to_vec2_SW :
    SlideDirection.from_vec2 (SlideDirection.to_vec2 SlideDirection.SW)
      = some SlideDirection.SW := by
  have hneg : (-(Real.sqrt 2)⁻¹ : ℝ) < 0 := neg_neg_of_pos sqrt_two_inv_pos
  have hangle : rustAtan2 (-(Real.sqrt 2)⁻¹ : ℝ) (-(Real.sqrt 2)⁻¹ : ℝ)
      = (-3/4) * Real.pi := by
    unfold rustAtan2
    rw [if_neg (not_lt.mpr hneg.le), if_pos hneg,
      if_neg (not_le.mpr hneg)]
    rw [div_self (ne_of_lt hneg), Real.arctan_one]
    ring
  simp only [SlideDirection.to_vec2, SlideDirection.from_vec2]
  rw [neg_sq, sqrt_two_inv_sq]
  rw [if_neg (by norm_num : ¬ ((1:ℝ)/2 + 1/2 < 1/100))]
  rw [hangle]
  have h1 : (-3/4) * Real.pi + Real.pi/8 = (-5/8) * Real.pi := by ring
  rw [h1]
  have h2 : ((-5/8) * Real.pi) / (2 * Real.pi) = (-5/16 : ℝ) := by
    field_simp
    ring
  have hfl : ⌊((-5 : ℝ)/16)⌋ = -1 := by norm_num
  have hrem : remEuclid ((-5/8) * Real.pi) (2 * Real.pi)
      = (11/8) * Real.pi := by
    unfold remEuclid
    rw [h2]
    norm_num
    ring
  rw [hrem]
  have h3 : ((11/8) * Real.pi) / (Real.pi/4) = (11/2 : ℝ) := by
    field_simp [Real.pi_ne_zero]
    ring
  rw [h3]
  norm_num
  rfl

theorem from_vec2_to_vec2_S :
    SlideDirection.from_vec2 (SlideDirection.to_vec2 SlideDirection.S)
      = some SlideDirection.S := by
  have hangle : rustAtan2 (-1 : ℝ) (0 : ℝ) = (-1/2) * Real.pi := by
    unfold rustAtan2
    rw [if_neg (lt_irrefl (0:ℝ)), if_neg (lt_irrefl (0:ℝ)),
      if_neg (by norm_num : ¬ ((0:ℝ) < -1)),
      if_pos (by norm_num : (-1:ℝ) < 0)]
    ring
  simp only [SlideDirection.to_vec2, SlideDirection.from_vec2]
  rw [if_neg (by norm_num : ¬ ((0:ℝ)^2 + ((-1):ℝ)^2 < 1/100))]
  rw [hangle]
  have h1 : (-1/2) * Real.pi + Real.pi/8 = (-3/8) * Real.pi := by ring
  rw [h1]
  have h2 : ((-3/8) * Real.pi) / (2 * Real.pi) = (-3/16 : ℝ) := by
    field_simp
    ring
  have hrem : remEuclid ((-3/8) * Real.pi) (2 * Real.pi)
      = (13/8) * Real.pi := by
    unfold remEuclid
    rw [h2]
    norm_num
    ring
  rw [hrem]
  have h3 : ((13/8) * Real.pi) / (Real.pi/4) = (13/2 : ℝ) := by
    field_simp [Real.pi_ne_zero]
    ring
  rw [h3]
  norm_num
  rfl

theorem from_vec2_to_vec2_SE :
    SlideDirection.from_vec2 (SlideDirection.to_vec2 SlideDirection.SE)
      = some SlideDirection.SE := by
  have hangle : rustAtan2 (-(Real.sqrt 2)⁻¹ : ℝ) ((Real.sqrt 2)⁻¹ : ℝ)
      = (-1/4) * Real.pi := by
    unfold rustAtan2
    rw [if_pos sqrt_two_inv_pos]
    rw [neg_div, div_self (ne_of_gt sqrt_two_inv_pos), Real.arctan_neg,
      Real.arctan_one]
    ring
  simp only [SlideDirection.to_vec2, SlideDirection.from_vec2]
  rw [neg_sq, sqrt_two_inv_sq]
  rw [if_neg (by norm_num : ¬ ((1:ℝ)/2 + 1/2 < 1/100))]
  rw [hangle]
  have h1 : (-1/4) * Real.pi + Real.pi/8 = (-1/8) * Real.pi := by ring
  rw [h1]
  have h2 : ((-1/8) * Real.pi) / (2 * Real.pi) = (-1/16 : ℝ) := by
    field_simp
    ring
  have hrem : remEuclid ((-1/8) * Real.pi) (2 * Real.pi)
      = (15/8) * Real.pi := by
    unfold remEuclid
    rw [h2]
    norm_num
    ring
  rw [hrem]
  have h3 : ((15/8) * Real.pi) / (Real.pi/4) = (15/2 : ℝ) := by
    field_simp [Real.pi_ne_zero]
    ring
  rw [h3]
  norm_num
  rfl

/-- C8: round-tripping each of the 8 slide directions through to_vec2
then from_vec2 returns the same direction; the zero vector and every
vector with squared length below the 0.01 dead zone map to none. -/
theorem slide_direction_roundtrip :
    (∀ d : SlideDirection,
      SlideDirection.from_vec2 (SlideDirection.to_vec2 d) = some d)
    ∧ SlideDirection.from_vec2 ((0 : ℝ), (0 : ℝ)) = none
    ∧ (∀ v : ℝ × ℝ, v.1 ^ 2 + v.2 ^ 2 < 1/100 →
        SlideDirection.from_vec2 v = none) := by
  refine ⟨?_, ?_, ?_⟩
  · intro d
    cases d with
    | N => exact from_vec2_to_vec2_N
    | NE => exact from_vec2_to_vec2_NE
    | E => exact from_vec2_to_vec2_E
    | SE => exact from_vec2_to_vec2_SE
    | S => exact from_vec2_to_vec2_S
    | SW => exact from_vec2_to_vec2_SW
    | W => exact from_vec2_to_vec2_W
    | NW => exact from_vec2_to_vec2_NW
  · unfold SlideDirection.from_vec2
    rw [if_pos (by norm_num)]
  · intro v hv
    unfold SlideDirection.from_vec2
    rw [if_pos hv]

/-- C8 witness: the dead-zone clause applied at the concrete vector
(0.05, 0.05), whose squared length 0.005 is below 0.01. -/
theorem slide_direction_roundtrip_witness :
    SlideDirection.from_vec2 ((1/20 : ℝ), (1/20 : ℝ)) = none :=
  slide_direction_roundtrip.2.2 ((1/20 : ℝ), (1/20 : ℝ)) (by norm_num)

/-! Claim about the chart generator's quantize.rs. -/

theorem dedup_step_beats (P : ℚ → Prop) (acc : List QuantizedNote)
    (b : QuantizedNote) (hacc : ∀ x ∈ acc, P x.beat) (hb : P b.beat) :
    ∀ x ∈ dedup_step acc b, P x.beat := by
  intro x hx
  match acc, hacc with
  | [], _ =>
    simp [dedup_step] at hx
    rw [hx]
    exact hb
  | a :: rest, hacc =>
    simp only [dedup_step] at hx
    by_cases hclose : |a.beat - b.beat| < 1/1000000
    · rw [if_pos hclose] at hx
      rcases List.mem_cons.mp hx with hx | hx
      · by_cases hst : b.strength > a.strength
        · rw [hx, if_pos hst]
          exact hacc a (List.mem_cons_self a rest)
        · rw [hx, if_neg hst]
          exact hacc a (List.mem_cons_self a rest)
      · exact hacc x (List.mem_cons_of_mem a hx)
    · rw [if_neg hclose] at hx
      rcases List.mem_cons.mp hx with hx | hx
      · rw [hx]; exact hb
      · exact hacc x hx

theorem dedup_foldl_beats (P : ℚ → Prop) :
    ∀ (l acc : List QuantizedNote), (∀ x ∈ l, P x.beat) →
    (∀ x ∈ acc, P x.beat) → ∀ x ∈ l.foldl dedup_step acc, P x.beat := by
  intro l
  induction l with
  | nil =>
    intro acc _ hacc x hx
    exact hacc x hx
  | cons b l ih =>
    intro acc hl hacc x hx
    rw [List.foldl_cons] at hx
    exact ih (dedup_step acc b)
      (fun y hy => hl y (List.mem_cons_of_mem b hy))
      (dedup_step_beats P acc b hacc (hl b (List.mem_cons_self b l)))
      x hx

theorem dedup_keep_stronger_beats (P : ℚ → Prop) (l : List QuantizedNote)
    (hl : ∀ x ∈ l, P x.beat) :
    ∀ x ∈ dedup_keep_stronger l, P x.beat := by
  intro x hx
  unfold dedup_keep_stronger at hx
  exact dedup_foldl_beats P l [] hl (by simp) x (List.mem_reverse.mp hx)

theorem dedup_step_head_beat (a : QuantizedNote) (rest : List QuantizedNote)
    (b : QuantizedNote) (hclose : |a.beat - b.beat| < 1/1000000) :
    ∃ h t, dedup_step (a :: rest) b = h :: t ∧ h.beat = a.beat ∧ t = rest := by
  simp only [dedup_step]
  rw [if_pos hclose]
  by_cases hst : b.strength > a.strength
  · exact ⟨_, _, rfl, by rw [if_pos hst], rfl⟩
  · exact ⟨_, _, rfl, by rw [if_neg hst], rfl⟩

theorem dedup_foldl_sorted :
    ∀ (l acc : List QuantizedNote),
    acc.Pairwise (fun x y => y.beat ≤ x.beat) →
    (∀ x ∈ acc, ∀ y ∈ l, x.beat ≤ y.beat) →
    l.Pairwise (fun x y => x.beat ≤ y.beat) →
    (l.foldl dedup_step acc).Pairwise (fun x y => y.beat ≤ x.beat) := by
  intro l
  induction l with
  | nil =>
    intro acc hacc _ _
    exact hacc
  | cons b l ih =>
    intro acc hacc hbound hl
    rw [List.foldl_cons]
    have hbl : ∀ y ∈ l, b.beat ≤ y.beat :=
      fun y hy => (List.pairwise_cons.mp hl).1 y hy
    have hlp : l.Pairwise (fun x y => x.beat ≤ y.beat) :=
      (List.pairwise_cons.mp hl).2
    apply ih (dedup_step acc b)
    · -- the new accumulator is still descending
      match acc, hacc, hbound with
      | [], _, _ => simp [dedup_step]
      | a :: rest, hacc, hbound =>
        by_cases hclose : |a.beat - b.beat| < 1/1000000
        · obtain ⟨h, t, heq, hbeat, ht⟩ :=
            dedup_step_head_beat a rest b hclose
          rw [heq, ht]
          rw [List.pairwise_cons] at hacc ⊢
          refine ⟨fun z hz => ?_, hacc.2⟩
          rw [hbeat]
          exact hacc.1 z hz
        · simp only [dedup_step]
          rw [if_neg hclose]
          rw [List.pairwise_cons]
          refine ⟨fun z hz => ?_, hacc⟩
          exact hbound z hz b (List.mem_cons_self b l)
    · -- every kept element sits at or below all remaining beats
      intro x hx y hy
      match acc, hacc, hbound with
      | [], _, _ =>
        simp [dedup_step] at hx
        rw [hx]
        exact hbl y hy
      | a :: rest, hacc, hbound =>
        by_cases hclose : |a.beat - b.beat| < 1/1000000
        · obtain ⟨h, t, heq, hbeat, ht⟩ :=
            dedup_step_head_beat a rest b hclose
          rw [heq, ht] at hx
          rcases List.mem_cons.mp hx with hx | hx
          · rw [hx, hbeat]
            exact hbound a (List.mem_cons_self a rest) y
              (List.mem_cons_of_mem b hy)
          · exact hbound x (List.mem_cons_of_mem a hx) y
              (List.mem_cons_of_mem b hy)
        · simp only [dedup_step] at hx
          rw [if_neg hclose] at hx
          rcases List.mem_cons.mp hx with hx | hx
          · rw [hx]
            exact hbl y hy
          · exact hbound x hx y (List.mem_cons_of_mem b hy)
    · exact hlp

theorem dedup_keep_stronger_sorted (l : List QuantizedNote)
    (hl : l.Pairwise (fun x y => x.beat ≤ y.beat)) :
    (dedup_keep_stronger l).Pairwise (fun x y => x.beat ≤ y.beat) := by
  unfold dedup_keep_stronger
  rw [List.pairwise_reverse]
  exact dedup_foldl_sorted l [] (by simp) (by simp) hl

theorem mergeSort_pair {α : Type} (a b : α) (le : α → α → Bool) :
    List.mergeSort [a, b] le = if le a b then [a, b] else [b, a] := by
  simp [List.mergeSort, List.merge]

theorem snap_beat_close (grid_step raw : ℚ) :
    ∃ k : ℤ, |snap_beat grid_step raw - (k : ℚ) * grid_step| ≤ 1/10000 := by
  refine ⟨rustRound (raw / grid_step), ?_⟩
  unfold snap_beat
  set snapped := (rustRound (raw / grid_step) : ℚ) * grid_step with hsn
  have h := abs_rustRound_sub_le (snapped * 10000)
  have heq : (rustRound (snapped * 10000) : ℚ) / 10000 - snapped
      = ((rustRound (snapped * 10000) : ℚ) - snapped * 10000) / 10000 := by
    ring
  rw [heq, abs_div]
  rw [abs_of_pos (by norm_num : (0:ℚ) < 10000)]
  linarith

/-- C9: for every difficulty (grid resolution 1, 2, 4 or 8), beat grid
and onset list, each output beat of quantize_onsets is within 1e-4 of
an integer multiple of 1/resolution, the output is sorted by beat,
and when two onsets snap to the same grid beat only one note survives,
carrying the larger of the two strengths (and that onset's original
time). -/
theorem quantize_onsets_spec (d : Difficulty) (grid : BeatGrid)
    (onsets : List OnsetEvent) :
    (∀ nt ∈ quantize_onsets onsets grid d.grid_resolution,
      ∃ k : ℤ, |nt.beat - (k : ℚ) * (1 / (d.grid_resolution : ℚ))| ≤ 1/10000)
    ∧ (quantize_onsets onsets grid d.grid_resolution).Pairwise
        (fun a b => a.beat ≤ b.beat)
    ∧ (∀ o1 o2 : OnsetEvent,
        ¬ (grid.time_to_beat o1.time_seconds < 0) →
        ¬ (grid.time_to_beat o2.time_seconds < 0) →
        snap_beat (1 / (d.grid_resolution : ℚ))
            (grid.time_to_beat o1.time_seconds)
          = snap_beat (1 / (d.grid_resolution : ℚ))
            (grid.time_to_beat o2.time_seconds) →
        quantize_onsets [o1, o2] grid d.grid_resolution
          = [{ beat := snap_beat (1 / (d.grid_resolution : ℚ))
                 (grid.time_to_beat o1.time_seconds)
               strength := if o2.strength > o1.strength then o2.strength
                 else o1.strength
               original_time := if o2.strength > o1.strength
                 then o2.time_seconds else o1.time_seconds }]) := by
  refine ⟨?_, ?_, ?_⟩
  · intro nt hmem
    simp only [quantize_onsets] at hmem
    refine dedup_keep_stronger_beats
      (fun β => ∃ k : ℤ, |β - (k : ℚ) * (1 / (d.grid_resolution : ℚ))| ≤ 1/10000)
      _ ?_ nt hmem
    intro x hx
    have hx2 := (List.mergeSort_perm _
      (fun a b : QuantizedNote => decide (a.beat ≤ b.beat))).mem_iff.mp hx
    rcases List.mem_filterMap.mp hx2 with ⟨o, _, hf⟩
    by_cases hneg : grid.time_to_beat o.time_seconds < 0
    · rw [if_pos hneg] at hf
      exact absurd hf (by simp)
    · rw [if_neg hneg] at hf
      have hbeat : x.beat = snap_beat (1 / (d.grid_resolution : ℚ))
          (grid.time_to_beat o.time_seconds) := by
        rw [← Option.some.inj hf]
      rw [hbeat]
      exact snap_beat_close _ _
  · simp only [quantize_onsets]
    apply dedup_keep_stronger_sorted
    have hsorted := @List.sorted_mergeSort QuantizedNote
      (fun a b => decide (a.beat ≤ b.beat))
      (fun a b c hab hbc => decide_eq_true
        (le_trans (of_decide_eq_true hab) (of_decide_eq_true hbc)))
      (fun a b => by
        rcases le_total a.beat b.beat with h | h <;> simp [h])
      (onsets.filterMap fun onset =>
        if grid.time_to_beat onset.time_seconds < 0 then none
        else some { beat := snap_beat (1 / (d.grid_resolution : ℚ))
                      (grid.time_to_beat onset.time_seconds),
                    strength := onset.strength,
                    original_time := onset.time_seconds })
    exact hsorted.imp fun h => of_decide_eq_true h
  · intro o1 o2 h1 h2 heq
    simp only [one_div] at heq ⊢
    simp only [quantize_onsets, List.filterMap_cons, List.filterMap_nil,
      one_div]
    rw [if_neg h1, if_neg h2]
    rw [mergeSort_pair]
    rw [if_pos (by simp [heq])]
    unfold dedup_keep_stronger
    simp only [List.foldl_cons, List.foldl_nil, dedup_step]
    rw [if_pos (by rw [heq]; norm_num)]
    by_cases hst : o2.strength > o1.strength
    · simp [hst]
    · simp [hst]

/-- C9 witness: two onsets at 0.25 s and 0.27 s on the beat grid
[0 s, 1 s] at 60 BPM both snap to beat 0 at Easy resolution 1; the
output is a single note carrying the larger strength 3/4 and that
onset's original time. -/
theorem quantize_onsets_spec_witness :
    quantize_onsets
      [{ frame := 0, strength := 1/2, time_seconds := 1/4 },
       { frame := 1, strength := 3/4, time_seconds := 27/100 }]
      { beats := [0, 1], bpm := 60 } (Difficulty.grid_resolution Difficulty.Easy)
      = [{ beat := 0, strength := 3/4, original_time := 27/100 }] := by
  have h := (quantize_onsets_spec Difficulty.Easy
      { beats := [0, 1], bpm := 60 }
      [{ frame := 0, strength := 1/2, time_seconds := 1/4 },
       { frame := 1, strength := 3/4, time_seconds := 27/100 }]).2.2
    { frame := 0, strength := 1/2, time_seconds := 1/4 }
    { frame := 1, strength := 3/4, time_seconds := 27/100 }
    (by norm_num [BeatGrid.time_to_beat, time_to_beat_go])
    (by norm_num [BeatGrid.time_to_beat, time_to_beat_go])
    (by norm_num [BeatGrid.time_to_beat, time_to_beat_go, snap_beat,
      rustRound, Difficulty.grid_resolution])
  rw [h]
  norm_num [BeatGrid.time_to_beat, time_to_beat_go, snap_beat, rustRound,
    Difficulty.grid_resolution]

end Funktrack
